import Mathlib

/-!
Shallow embedding of the AvtoBot repository (`bot.py`, `database.py`) and
theorems checking the specification's claims about it: field extraction from
listing documents, the paint-condition image pipeline, the composite scorer,
the similar-ads query, and the storage upsert.

Conventions of the embedding:
* A parsed document is represented by the results the extractor queries out
  of it (one entry per CSS selector, in source order), since the claims are
  about what the extractors do with those results, not about HTML parsing.
* Python `int` is `ℤ`; `int()` truncation and `round()` banker's rounding
  are modelled exactly on `ℚ`.
* External numeric inputs (cv2 statistics) are `ℚ` fields of a record;
  facts such as "a standard deviation is non-negative" appear as hypotheses.
* A caught Python exception is an `Option`/`Except` `none`/`error` value.
-/

/-- Python `int()` applied to a rational: truncation toward zero. -/
def pyTrunc (q : ℚ) : ℤ := if q < 0 then ⌈q⌉ else ⌊q⌋

/-- Python `round()` on a rational: round half to even. -/
def pyRound (q : ℚ) : ℤ :=
  if q - (⌊q⌋ : ℚ) < 1/2 then ⌊q⌋
  else if (1:ℚ)/2 < q - (⌊q⌋ : ℚ) then ⌊q⌋ + 1
  else if ⌊q⌋ % 2 = 0 then ⌊q⌋ else ⌊q⌋ + 1

/-- Python `str.isdigit()` (ASCII digits): nonempty and all digits. -/
def pyIsdigit (s : String) : Bool := s ≠ "" && s.toList.all Char.isDigit

/-- `str.lower()` (ASCII case folding; the case-insensitive comparisons in
the source only ever involve ASCII model tokens). -/
def strLower (s : String) : String := ⟨s.toList.map Char.toLower⟩

/-- `s.startswith(pre)`. -/
def strStartsWith (s pre : String) : Bool := pre.toList.isPrefixOf s.toList

/-- `s.strip()`, as `int()` applies it to its string argument. -/
def pyStrip (s : String) : String :=
  ⟨((s.toList.dropWhile Char.isWhitespace).reverse.dropWhile Char.isWhitespace).reverse⟩

/-- `''.join(re.findall(r'\d+', s))`: the digit characters of `s` in order. -/
def digitsOf (s : String) : String := ⟨s.toList.filter Char.isDigit⟩

/-- Value of a digit string, as `int()` reads it. -/
def digitsToNat (s : String) : ℕ := s.toList.foldl (fun a c => 10 * a + (c.toNat - 48)) 0

/-- `s.replace(' ', '')`. -/
def removeSpaces (s : String) : String := ⟨s.toList.filter (· ≠ ' ')⟩

/-- Python truthiness of an optional string: present and nonempty. -/
def pyTruthy : Option String → Bool
  | some s => s ≠ ""
  | none => false

/-- Python `a or b` on optional strings: `b` when `a` is falsy. -/
def pyOr (a b : Option String) : Option String := if pyTruthy a then a else b

/-- A markup element as the extractors see it: its `content` attribute, if
any, and its stripped text (`get_text(strip=True)`). -/
structure Elem where
  content : Option String
  text : String
deriving DecidableEq

/-- A JSON value found at `data['offers']['price']` in the JSON-LD script. -/
inductive PyVal where
  | int (n : ℤ)
  | float (q : ℚ)
  | str (s : String)
  | other
deriving DecidableEq

/-- Python `int(v)` on a JSON value; `none` models the `ValueError` or
`TypeError` that the surrounding `except: pass` absorbs. -/
def pyIntOf : PyVal → Option ℤ
  | .int n => some n
  | .float q => some (pyTrunc q)
  | .str s =>
    let t := pyStrip s
    if pyIsdigit t then some (digitsToNat t)
    else if strStartsWith t "-" && pyIsdigit ⟨t.toList.drop 1⟩ then
      some (-(digitsToNat ⟨t.toList.drop 1⟩ : ℤ))
    else if strStartsWith t "+" && pyIsdigit ⟨t.toList.drop 1⟩ then
      some (digitsToNat ⟨t.toList.drop 1⟩)
    else none
  | .other => none

/-- An `<img>` element: its `data-src` and `src` attributes. -/
structure Img where
  dataSrc : Option String
  src : Option String
deriving DecidableEq

/-- An Avito listing document, represented by what the extractors query from
it: the `select_one` result for each of the five title selectors and five
price selectors (in source order), the `og:title` meta and `<title>` nodes,
the JSON-LD offers price when the script exists, parses and has the keys
(`none` otherwise), the regex capture of each of the three raw-text price
patterns, and the `select` result list for each of the four image selector
groups. -/
structure AvitoDoc where
  titleSel : List (Option Elem)
  ogTitle : Option Elem
  pageTitle : Option Elem
  priceSel : List (Option Elem)
  jsonLd : Option PyVal
  pricePat : List (Option String)
  imgSel : List (List Img)
deriving DecidableEq

/-- A Drom listing document: the four price selectors, the three raw-text
price patterns' captures, and the four image selector groups (a Drom image
element contributes only its `src` attribute). -/
structure DromDoc where
  priceSel : List (Option Elem)
  pricePat : List (Option String)
  imgSel : List (List (Option String))
deriving DecidableEq

/-- bot.py 525-553, `extract_avito_title`: first selector hit with nonempty
text, else a truthy `og:title` content, else the `<title>` text, else the
"unknown model" default. -/
def extract_avito_title (doc : AvitoDoc) : String :=
  match doc.titleSel.findSome? (fun oe => oe.bind (fun e => if e.text = "" then none else some e.text)) with
  | some t => t
  | none =>
    match doc.ogTitle.bind (fun m => if pyTruthy m.content then m.content else none) with
    | some c => c
    | none =>
      match doc.pageTitle with
      | some p => p.text
      | none => "Неизвестная модель"

/-- Body of the Avito price-selector loop (bot.py 595-606): a truthy
`content` attribute that is all digits wins; otherwise the digits found in
the element text win; otherwise the loop moves on. -/
def elemPrice (e : Elem) : Option ℤ :=
  if pyTruthy e.content && pyIsdigit (e.content.getD "") then
    some (digitsToNat (e.content.getD ""))
  else
    let ds := digitsOf (removeSpaces e.text)
    if ds = "" then none else some (digitsToNat ds)

/-- Body of the Drom price-selector loop (bot.py 648-654): the digits of the
element text, with no `content`-attribute branch. -/
def textPrice (e : Elem) : Option ℤ :=
  let ds := digitsOf (removeSpaces e.text)
  if ds = "" then none else some (digitsToNat ds)

/-- Body of the raw-text pattern loop (bot.py 625-630 and 663-668): the
capture with spaces removed, accepted when it is all digits. -/
def patPrice (c : String) : Option ℤ :=
  let c2 := removeSpaces c
  if pyIsdigit c2 then some (digitsToNat c2) else none

/-- bot.py 584-636, `extract_avito_price`: price selectors, then the JSON-LD
offers price via `int()` (returned unchecked), then the raw-text patterns,
then the 0 default. -/
def extract_avito_price (doc : AvitoDoc) : ℤ :=
  match doc.priceSel.findSome? (fun oe => oe.bind elemPrice) with
  | some n => n
  | none =>
    match doc.jsonLd.bind pyIntOf with
    | some n => n
    | none =>
      match doc.pricePat.findSome? (fun oc => oc.bind patPrice) with
      | some n => n
      | none => 0

/-- bot.py 638-674, `extract_drom_price`. -/
def extract_drom_price (doc : DromDoc) : ℤ :=
  match doc.priceSel.findSome? (fun oe => oe.bind textPrice) with
  | some n => n
  | none =>
    match doc.pricePat.findSome? (fun oc => oc.bind patPrice) with
    | some n => n
    | none => 0

/-- `\w` word characters, for the `\b` boundaries of the year regex. -/
def isWordChar (c : Char) : Bool := c.isAlphanum || c = '_'

/-- Try to match `\b(19|20)\d{2}\b` at the head of `cs`; `prev` is the
character just before it, if any. -/
def yearHere (prev : Option Char) (cs : List Char) : Option ℕ :=
  match cs with
  | c0 :: c1 :: c2 :: c3 :: rest =>
    if (match prev with | some p => !isWordChar p | none => true) &&
       (((c0 = '1') && (c1 = '9')) || ((c0 = '2') && (c1 = '0'))) &&
       c2.isDigit && c3.isDigit &&
       (match rest with | r :: _ => !isWordChar r | [] => true) then
      some (1000 * (c0.toNat - 48) + 100 * (c1.toNat - 48) + 10 * (c2.toNat - 48) + (c3.toNat - 48))
    else none
  | _ => none

/-- Left-to-right search for the first `\b(19|20)\d{2}\b` match
(`re.search`). -/
def findYear (prev : Option Char) : List Char → Option ℕ
  | [] => none
  | c :: cs =>
    match yearHere prev (c :: cs) with
    | some y => some y
    | none => findYear (some c) cs

/-- bot.py 742-748, `extract_year`: the first `(19|20)\d\d` word of the
title, else the 2020 default. -/
def extract_year (title : String) : ℤ :=
  match findYear none title.toList with
  | some y => (y : ℤ)
  | none => 2020

/-- bot.py 691-694 and 724-727: keep a truthy `src` that starts with `http`;
the scheme-relative `https:` rewrite is nested under that check. -/
def normalizeSrc : Option String → Option String
  | some s =>
    if s ≠ "" && strStartsWith s "http" then
      some (if strStartsWith s "//" then "https:" ++ s else s)
    else none
  | none => none

/-- bot.py 698-701 and 731-734: order-preserving first-occurrence
deduplication. -/
def pyDedup (l : List String) : List String :=
  l.foldl (fun acc s => if s ∈ acc then acc else acc ++ [s]) []

/-- bot.py 676-707, `extract_avito_images`: per selector group, the first
ten elements' `data-src or src` candidates, filtered and normalized, then
deduplicated. -/
def extract_avito_images (doc : AvitoDoc) : List String :=
  pyDedup ((doc.imgSel.map (fun g => (g.take 10).filterMap (fun i => normalizeSrc (pyOr i.dataSrc i.src)))).flatten)

/-- bot.py 709-740, `extract_drom_images`. -/
def extract_drom_images (doc : DromDoc) : List String :=
  pyDedup ((doc.imgSel.map (fun g => (g.take 10).filterMap normalizeSrc)).flatten)

/-- The first position where `avito.ru/` is followed by at least one
non-`/` character, and the run of non-`/` characters there: the capture of
`re.search(r'avito\.ru/([^/]+)', url)`. -/
def avitoRegionCapture : List Char → Option String
  | [] => none
  | c :: cs =>
    if "avito.ru/".toList.isPrefixOf (c :: cs) then
      match (c :: cs).drop 9 with
      | [] => avitoRegionCapture cs
      | r :: rest => if r = '/' then avitoRegionCapture cs else some ⟨(r :: rest).takeWhile (· ≠ '/')⟩
    else avitoRegionCapture cs

/-- bot.py 784-791: the region slug lookup table. -/
def region_map : List (String × String) :=
  [("moskva", "Москва"), ("sankt-peterburg", "Санкт-Петербург"), ("spb", "Санкт-Петербург"),
   ("novosibirsk", "Новосибирск"), ("ekaterinburg", "Екатеринбург"), ("kazan", "Казань")]

/-- Python `str.title()`: first letter of each alphabetic run uppercased,
the rest lowercased. -/
def pyTitle (s : String) : String :=
  ⟨(s.toList.foldl (fun (acc : List Char × Bool) c =>
      (acc.1 ++ [if c.isAlpha then (if acc.2 then c.toLower else c.toUpper) else c], c.isAlpha))
    ([], false)).1⟩

/-- bot.py 778-795, `extract_avito_region`. -/
def extract_avito_region (url : String) : String :=
  match avitoRegionCapture url.toList with
  | some region =>
    match region_map.find? (fun p => p.1 = region) with
    | some p => p.2
    | none => pyTitle ⟨region.toList.map (fun c => if c = '-' then ' ' else c)⟩
  | none => "Неизвестно"

/-- The `ad_data` dict built by `parse_avito_ad` (bot.py 471-480). -/
structure AdData where
  title : String
  price : ℤ
  year : ℤ
  region : String
  image_count : ℕ
  images : List String
  source : String
deriving DecidableEq

/-- bot.py 447-484, `parse_avito_ad` (the extraction part; the document has
already been fetched in this model). -/
def parse_avito_ad (doc : AvitoDoc) (url : String) : AdData :=
  let title := extract_avito_title doc
  let images := extract_avito_images doc
  { title := title
    price := extract_avito_price doc
    year := extract_year title
    region := extract_avito_region url
    image_count := images.length
    images := images
    source := "avito" }

/-- The raw statistics cv2 computes from one preprocessed image. They are
external inputs to the embedding; facts such as "a standard deviation, a
variance or a pixel-count ratio is non-negative" enter as hypotheses where a
theorem needs them. -/
structure ImageStats where
  hueStd : ℚ
  satStd : ℚ
  edgeDensity : ℚ
  laplacianVar : ℚ
  avgBrightness : ℚ
deriving DecidableEq

/-- bot.py 135-146, `analyze_color_uniformity`. -/
def analyze_color_uniformity (st : ImageStats) : ℚ :=
  min 100 (max 0 (100 - (st.hueStd * 0.5 + st.satStd * 0.2)))

/-- bot.py 148-159, `analyze_edges`. -/
def analyze_edges (st : ImageStats) : ℚ :=
  min 100 (st.edgeDensity * 1000)

/-- bot.py 161-171, `analyze_texture`. -/
def analyze_texture (st : ImageStats) : ℚ :=
  min 100 (max 0 (100 - st.laplacianVar * 0.1))

/-- bot.py 173-186, `analyze_brightness`. -/
def analyze_brightness (st : ImageStats) : ℚ :=
  if 50 ≤ st.avgBrightness ∧ st.avgBrightness ≤ 80 then 90
  else if (30 ≤ st.avgBrightness ∧ st.avgBrightness < 50) ∨
          (80 < st.avgBrightness ∧ st.avgBrightness ≤ 120) then 70
  else 40

/-- bot.py 188-204, `calculate_paint_score`: the fixed-weight sum, `int()`
truncated and capped at 100. -/
def calculate_paint_score (color_uniformity edge_quality texture_smoothness brightness_level : ℚ) : ℤ :=
  min 100 (pyTrunc (color_uniformity * 0.4 + edge_quality * 0.3 +
                    texture_smoothness * 0.2 + brightness_level * 0.1))

/-- The dict returned by `analyze_image_features`: the except arm returns a
bare `{'score': 0}`, so the signal keys are optional. -/
structure PaintResult where
  score : ℤ
  color_uniformity : Option ℚ := none
  edge_quality : Option ℚ := none
  texture_smoothness : Option ℚ := none
  brightness_level : Option ℚ := none
deriving DecidableEq

/-- bot.py 93-120, `analyze_image_features`; `none` stats model the caught
exception, which yields the bare `{'score': 0}` record. -/
def analyze_image_features : Option ImageStats → PaintResult
  | none => { score := 0 }
  | some st =>
    let u := analyze_color_uniformity st
    let e := analyze_edges st
    let t := analyze_texture st
    let b := analyze_brightness st
    { score := calculate_paint_score u e t b
      color_uniformity := some u
      edge_quality := some e
      texture_smoothness := some t
      brightness_level := some b }

/-- The observable outcome of fetching and decoding one image URL
(bot.py 63-91): a failure (non-200 status, download or decode exception), or
a decoded pixel array with its dimensions, whether it resolves to
three-channel data, and the cv2 statistics when feature analysis runs
(`none` there models an exception inside `analyze_image_features`). -/
inductive Fetch where
  | failure
  | ok (height width : ℕ) (threeChannel : Bool) (stats : Option ImageStats)
deriving DecidableEq

/-- bot.py 63-91, `analyze_single_image`: `None` for a failed download or
decode, an image under 100 pixels in either dimension, or one that is not
three-channel; otherwise the feature analysis result. -/
def analyze_single_image : Fetch → Option PaintResult
  | .failure => none
  | .ok h w three st =>
    if h < 100 ∨ w < 100 then none
    else if three then some (analyze_image_features st)
    else none

/-- The dict returned by `analyze_paint_from_urls` and
`aggregate_analyses`: the `error` key is present exactly on the two
insufficient-data returns. -/
structure PaintReport where
  score : ℤ
  error : Option String := none
  condition : Option String := none
  emoji : Option String := none
  analyzed_images : Option ℕ := none
  message : Option String := none
deriving DecidableEq

/-- bot.py 206-234, `aggregate_analyses`: `int()` of the mean score, with
the qualitative label read off the un-truncated mean. -/
def aggregate_analyses (analyses : List PaintResult) (count : ℕ) : PaintReport :=
  if analyses = [] then { score := 0, message := some "Нет данных для анализа" }
  else
    let avg : ℚ := ((analyses.map PaintResult.score).sum : ℚ) / analyses.length
    let cond : String × String :=
      if 80 ≤ avg then ("отличное", "🎨")
      else if 60 ≤ avg then ("хорошее", "✅")
      else if 40 ≤ avg then ("удовлетворительное", "⚠️")
      else ("требует внимания", "🔧")
    { score := pyTrunc avg
      condition := some cond.1
      emoji := some cond.2
      analyzed_images := some count
      message := some ("Проанализировано " ++ toString count ++ " изображений") }

/-- The per-URL loop of bot.py 44-56 over the first three URLs: an analysis
is kept only when it exists and its score is positive; an exception from
`analyze_single_image` is caught and skipped. -/
def successfulAnalyses (urls : List Fetch) : List PaintResult :=
  (urls.take 3).filterMap (fun d =>
    match analyze_single_image d with
    | some a => if 0 < a.score then some a else none
    | none => none)

/-- bot.py 39-61, `analyze_paint_from_urls`. -/
def analyze_paint_from_urls (urls : List Fetch) : PaintReport :=
  if urls = [] then { score := 0, error := some "Нет изображений для анализа" }
  else
    let analyses := successfulAnalyses urls
    if analyses = [] then { score := 0, error := some "Не удалось проанализировать изображения" }
    else aggregate_analyses analyses analyses.length

/-- One entry of the per-field analysis dict (emoji, text, score). -/
structure ScoreItem where
  emoji : String
  text : String
  score : ℕ
deriving DecidableEq

/-- bot.py 833-845, `analyze_price`. -/
def analyze_price (price : ℤ) : ScoreItem :=
  if price = 0 then ⟨"❓", "Цена не указана", 3⟩
  else if price < 100000 then ⟨"🚨", "Подозрительно низкая", 1⟩
  else if price < 300000 then ⟨"💰", "Низкая", 7⟩
  else if price < 800000 then ⟨"💵", "Средняя", 8⟩
  else if price < 2000000 then ⟨"💎", "Высокая", 6⟩
  else ⟨"🏎️", "Премиум", 5⟩

/-- bot.py 847-855, `analyze_photos`. -/
def analyze_photos (image_count : ℕ) : ScoreItem :=
  if image_count = 0 then ⟨"❌", "Нет фото", 1⟩
  else if image_count < 3 then ⟨"⚠️", "Мало фото", 5⟩
  else if image_count < 6 then ⟨"✅", "Достаточно", 8⟩
  else ⟨"📸", "Много фото", 9⟩

/-- bot.py 858: the derived vehicle age, with no lower clamp. -/
def car_age (year : ℤ) : ℤ := 2024 - year

/-- bot.py 857-867, `analyze_year`. -/
def analyze_year (year : ℤ) : ScoreItem :=
  if car_age year ≤ 3 then ⟨"🆕", "Новый", 9⟩
  else if car_age year ≤ 7 then ⟨"✅", "Средний возраст", 7⟩
  else if car_age year ≤ 12 then ⟨"⚠️", "Старый", 5⟩
  else ⟨"🚗", "Ветеран", 3⟩

/-- bot.py 869-876, `calculate_overall_score`: Python `round` of the mean of
the three sub-scores. (The mean of three integers never lands exactly on a
half, and the float error of `sum/3` cannot cross a rounding boundary at
these magnitudes, so `pyRound` of the exact rational is the computed
value.) -/
def calculate_overall_score (pa fa ya : ScoreItem) : ℤ :=
  pyRound (((pa.score + fa.score + ya.score : ℕ) : ℚ) / 3)

/-- bot.py 878-897, `generate_recommendations`. -/
def generate_recommendations (ad : AdData) : List String :=
  let r1 : List String :=
    if ad.image_count = 0 then ["❌ *Нет фотографий* - обязательно запросите у продавца"]
    else if ad.image_count < 3 then ["⚠️ *Мало фотографий* - попросите дополнительные фото"]
    else []
  let r2 : List String :=
    if ad.price = 0 then ["❓ *Цена не указана* - уточните стоимость"]
    else if ad.price < 100000 then ["🚨 *Подозрительно низкая цена* - будьте осторожны"]
    else []
  let r3 : List String :=
    if 15 < 2024 - ad.year then ["🕰️ *Автомобиль старше 15 лет* - проверьте техническое состояние"]
    else []
  let recs := r1 ++ r2 ++ r3
  if recs = [] then ["✅ *Объявление выглядит нормально* - можно договариваться о осмотре"] else recs

/-- The analysis dict assembled by `analyze_ad` and its caller. -/
structure Analysis where
  price_analysis : ScoreItem
  photo_analysis : ScoreItem
  year_analysis : ScoreItem
  recommendations : List String
  overall_score : ℤ
  paint_analysis : Option PaintReport
deriving DecidableEq

/-- bot.py 817-831, `analyze_ad`: note that the overall score is computed
here, before any paint analysis exists on the dict. -/
def analyze_ad (ad : AdData) : Analysis :=
  let pa := analyze_price ad.price
  let fa := analyze_photos ad.image_count
  let ya := analyze_year ad.year
  { price_analysis := pa
    photo_analysis := fa
    year_analysis := ya
    recommendations := generate_recommendations ad
    overall_score := calculate_overall_score pa fa ya
    paint_analysis := none }

/-- The handler glue of bot.py 326-337 and 403-414: the paint report is
attached to the analysis dict only after `analyze_ad` has returned. -/
def buildAnalysis (ad : AdData) (paint : PaintReport) : Analysis :=
  { analyze_ad ad with paint_analysis := some paint }

/-- A row of the `car_ads` table (database.py 44-64). Nullable columns are
`Option`; the JSONB columns keep their pre-serialization values (the
`json.dumps` encoding is injective and plays no role in the claims), with
`none` standing for the `{}` default blob; the timestamp columns, set from
the database clock, are outside the model. -/
structure CarAd where
  id : String
  source_platform : String
  url : String
  title : Option String
  price : Option ℤ
  year : Option ℤ
  mileage : Option ℤ
  region : Option String
  city : Option String
  image_urls : List String
  overall_score : Option ℚ
  paint_analysis : Option String
  wheel_analysis : Option String
  interior_analysis : Option String
  is_active : Bool
deriving DecidableEq

/-- The `ad_data` dict passed to `save_car_ad`: keys read with `[...]` are
required, keys read with `.get` are optional with the code's defaults. -/
structure AdInput where
  id : String
  source_platform : String
  url : String
  title : Option String := none
  price : Option ℤ := none
  year : Option ℤ := none
  mileage : Option ℤ := none
  region : Option String := none
  city : Option String := none
  image_urls : Option (List String) := none
  overall_score : Option ℚ := none
  paint_analysis : Option String := none
  wheel_analysis : Option String := none
  interior_analysis : Option String := none
  is_active : Option Bool := none
deriving DecidableEq

/-- The UPDATE of database.py 106-129: every listed column is overwritten;
`id`, `source_platform`, `url` (and the timestamps) keep the row's values. -/
def updatedRow (r : CarAd) (ad : AdInput) : CarAd :=
  { r with
    title := ad.title, price := ad.price, year := ad.year, mileage := ad.mileage,
    region := ad.region, city := ad.city, image_urls := ad.image_urls.getD [],
    overall_score := ad.overall_score, paint_analysis := ad.paint_analysis,
    wheel_analysis := ad.wheel_analysis, interior_analysis := ad.interior_analysis,
    is_active := ad.is_active.getD true }

/-- The INSERT of database.py 132-155. -/
def insertedRow (ad : AdInput) : CarAd :=
  { id := ad.id, source_platform := ad.source_platform, url := ad.url,
    title := ad.title, price := ad.price, year := ad.year, mileage := ad.mileage,
    region := ad.region, city := ad.city, image_urls := ad.image_urls.getD [],
    overall_score := ad.overall_score, paint_analysis := ad.paint_analysis,
    wheel_analysis := ad.wheel_analysis, interior_analysis := ad.interior_analysis,
    is_active := ad.is_active.getD true }

/-- A connection as `save_car_ad` uses it: the committed table and the open
transaction's working copy. Statements act on the working copy; `commit`
publishes it, `rollback` discards it. -/
structure Conn where
  committed : List CarAd
  working : List CarAd
deriving DecidableEq

/-- `conn.rollback()`. -/
def rollback (c : Conn) : Conn := { c with working := c.committed }

/-- Which statement of `save_car_ad` raises, if any; the injected external
database failure. -/
inductive FailAt where
  | selectStmt
  | writeStmt
  | commitStmt
deriving DecidableEq

/-- The `try` block of database.py 97-158: the SELECT existence check, then
either the UPDATE or the INSERT, then the commit. A raising statement yields
`error` carrying the connection state at that point (an SQL statement either
applies fully or raises without applying; the commit publishes atomically or
raises with the committed table unchanged). -/
def save_body (c : Conn) (ad : AdInput) (fail : Option FailAt) : Except Conn Conn :=
  if fail = some .selectStmt then .error c
  else
    let rowExists := c.working.any (fun r => r.id = ad.id)
    if fail = some .writeStmt then .error c
    else
      let c1 : Conn :=
        if rowExists then
          { c with working := c.working.map (fun r => if r.id = ad.id then updatedRow r ad else r) }
        else
          { c with working := c.working ++ [insertedRow ad] }
      if fail = some .commitStmt then .error c1
      else .ok { c1 with committed := c1.working }

/-- database.py 95-162, `save_car_ad`: the `except` arm logs and rolls back,
and no exception escapes; the call is made on a connection with no open
transaction, so the working copy starts equal to the committed table. The
result is the committed table after the call returns. -/
def save_car_ad (table : List CarAd) (ad : AdInput) (fail : Option FailAt) : List CarAd :=
  match save_body { committed := table, working := table } ad fail with
  | .ok c2 => c2.committed
  | .error cf => (rollback cf).committed

/-- database.py 208: the known model tokens. -/
def knownModels : List String := ["golf", "passat", "polo", "jetta", "tiguan", "touran"]

/-- Plain substring test (Python `pat in t` on strings). -/
def containsStr (t pat : String) : Bool :=
  (List.range (t.toList.length + 1)).any (fun i => pat.toList.isPrefixOf (t.toList.drop i))

/-- SQL `t ILIKE '%pat%'` for a wildcard-free `pat`: case-insensitive
substring containment. -/
def containsCI (t pat : String) : Bool := containsStr (strLower t) (strLower pat)

/-- Python `str.split()`: split on whitespace runs, no empty parts. -/
def pySplitWs (s : String) : List String :=
  ((s.toList.splitOnP Char.isWhitespace).map (fun l => (⟨l⟩ : String))).filter (· ≠ "")

/-- database.py 202-215, `_extract_model`: first known model token contained
in the lowercased title, else the second whitespace token of the title, else
the empty string. -/
def _extract_model (title : String) : String :=
  if title = "" then ""
  else
    match knownModels.find? (fun m => containsStr (strLower title) m) with
    | some m => m
    | none =>
      let parts := pySplitWs title
      if 1 < parts.length then parts.getD 1 "" else ""

/-- The WHERE clause of database.py 174-180 on one row, under SQL
three-valued logic: a NULL column fails its comparison and excludes the
row. -/
def matchesQuery (model : String) (year price : ℤ) (tid : String) (r : CarAd) : Bool :=
  (match r.title with | some t => containsCI t model | none => false) &&
  (match r.year with | some y => decide (year - 2 ≤ y ∧ y ≤ year + 2) | none => false) &&
  (match r.price with
   | some p => decide ((price : ℚ) * 0.7 ≤ (p : ℚ) ∧ (p : ℚ) ≤ (price : ℚ) * 1.3)
   | none => false) &&
  r.id ≠ tid &&
  r.is_active

/-- The ORDER BY of database.py 181-182, as a total preorder:
`overall_score DESC NULLS LAST`, tie-broken by `ABS(price - target) ASC`
(every returned row has a non-NULL price, so the `getD` default is never the
deciding value on results). -/
def rankLE (price : ℤ) (a b : CarAd) : Bool :=
  match a.overall_score, b.overall_score with
  | some x, some y =>
    if x = y then decide (|a.price.getD 0 - price| ≤ |b.price.getD 0 - price|) else decide (y < x)
  | some _, none => true
  | none, some _ => false
  | none, none => decide (|a.price.getD 0 - price| ≤ |b.price.getD 0 - price|)

/-- database.py 164-200, `find_similar_ads`: filter by the WHERE clause,
order by the ORDER BY comparator, return at most `limit` rows. `year` and
`price` are the target's `.get('year', 0)` and `.get('price', 0)` values and
`tid` its identifier. -/
def find_similar_ads (corpus : List CarAd) (title tid : String) (year price : ℤ)
    (limit : ℕ) : List CarAd :=
  let model := _extract_model title
  (((corpus.filter (matchesQuery model year price tid)).insertionSort
      (fun a b => rankLE price a b = true)).take limit)

/-- Modelled from the spec's words, for comparison with the code (claim C1):
"overall score is the mean of the sub-scores actually available — condition
score participates only when insufficient data is false, otherwise the
overall score is computed from price/photo/age alone". -/
def overall_score_spec (pa fa ya : ScoreItem) (cond : PaintReport) : ℤ :=
  if cond.error.isSome then pyRound (((pa.score + fa.score + ya.score : ℕ) : ℚ) / 3)
  else pyRound ((((pa.score + fa.score + ya.score : ℕ) : ℚ) + (cond.score : ℚ)) / 4)

/-- A parsed ad: price 500000 (sub-score 8), seven photos (sub-score 9),
year 2023 (sub-score 9). -/
def adC1 : AdData :=
  { title := "Volkswagen Golf 2023", price := 500000, year := 2023, region := "Москва",
    image_count := 7, images := [], source := "avito" }

/-- One image's statistics yielding composite score 20: hue deviation 120
(uniformity 40), no edges, Laplacian variance 1000 (texture 0), mean
brightness 200 (brightness 40). -/
def stC1 : ImageStats :=
  { hueStd := 120, satStd := 0, edgeDensity := 0, laplacianVar := 1000, avgBrightness := 200 }

/-- A successfully decoded 200x200 three-channel image with those
statistics. -/
def fetchC1 : Fetch := .ok 200 200 true (some stC1)

/-- The paint report `analyze_paint_from_urls` produces for the single image
`fetchC1` (see `paintC1_reachable`): a real assessment, no error flag. -/
def paintC1 : PaintReport :=
  { score := 20, condition := some "требует внимания", emoji := some "🔧",
    analyzed_images := some 1, message := some "Проанализировано 1 изображений" }

/-- An Avito document with no marker of any kind: every selector misses,
there is no JSON-LD script, no raw-text pattern matches, and every image
selector group is empty. -/
def emptyAvitoDoc : AvitoDoc :=
  { titleSel := List.replicate 5 none, ogTitle := none, pageTitle := none,
    priceSel := List.replicate 5 none, jsonLd := none,
    pricePat := List.replicate 3 none, imgSel := List.replicate 4 [] }

/-- A Drom document with no price marker. -/
def emptyDromDoc : DromDoc :=
  { priceSel := List.replicate 4 none, pricePat := List.replicate 3 none,
    imgSel := List.replicate 4 [] }

/-- An Avito document whose only price information is a JSON-LD script with
`offers.price` equal to the integer -5. -/
def negPriceDoc : AvitoDoc :=
  { emptyAvitoDoc with jsonLd := some (.int (-5)) }

/-- A gallery image whose `src` is scheme-relative. -/
def schemeRelImg : Img := { dataSrc := none, src := some "//99.img.avito.st/1.png" }

/-- The same image URL in absolute `https` form. -/
def absoluteImg : Img := { dataSrc := none, src := some "https://99.img.avito.st/1.png" }

/-- An Avito document whose gallery has only the scheme-relative form. -/
def schemeRelDoc : AvitoDoc := { emptyAvitoDoc with imgSel := [[schemeRelImg], [], [], []] }

/-- An Avito document whose gallery has the same resolved URL twice: once
scheme-relative, once absolute. -/
def bothFormsDoc : AvitoDoc := { emptyAvitoDoc with imgSel := [[schemeRelImg, absoluteImg], [], [], []] }

/-- A Drom document whose gallery has one scheme-relative image URL. -/
def dromSchemeRelDoc : DromDoc := { emptyDromDoc with imgSel := [[some "//s.drom.ru/v1.jpg"], [], [], []] }

/-- Statistics of an ideal image: composite score 99 (uniformity 100, edges
100, texture 100, brightness 90). -/
def st99 : ImageStats :=
  { hueStd := 0, satStd := 0, edgeDensity := 1/10, laplacianVar := 0, avgBrightness := 60 }

/-- Statistics differing only in brightness (200, bucket 40): composite
score 94. -/
def st94 : ImageStats :=
  { hueStd := 0, satStd := 0, edgeDensity := 1/10, laplacianVar := 0, avgBrightness := 200 }

/-- A successfully decoded image with statistics `st99`. -/
def fetch99 : Fetch := .ok 200 200 true (some st99)

/-- A successfully decoded image with statistics `st94`. -/
def fetch94 : Fetch := .ok 200 200 true (some st94)

/-- A stored listing similar to the target "Volkswagen Golf 2018" at
450000: model "golf", year 2017, price 400000, quality score 80, active. -/
def simRow : CarAd :=
  { id := "a1", source_platform := "avito", url := "u1",
    title := some "Volkswagen Golf 2017", price := some 400000, year := some 2017,
    mileage := none, region := none, city := none, image_urls := [],
    overall_score := some 80, paint_analysis := none, wheel_analysis := none,
    interior_analysis := none, is_active := true }

/-! ## Theorems -/

/-- The scheme-relative rewrite branch is dead code: any candidate the
filter accepts is returned verbatim, because `startswith('http')` excludes
every string beginning with `//`. -/
theorem normalizeSrc_never_rewrites (o : Option String) (s : String)
    (h : normalizeSrc o = some s) : o = some s := by
  match o with
  | none => simp [normalizeSrc] at h
  | some t =>
    simp only [normalizeSrc] at h
    split_ifs at h with h1 h2
    · obtain ⟨-, hh⟩ := Bool.and_eq_true .. |>.mp h1
      simp only [strStartsWith] at hh h2
      obtain ⟨u, hu⟩ := List.isPrefixOf_iff_prefix.mp hh
      obtain ⟨w, hw⟩ := List.isPrefixOf_iff_prefix.mp h2
      rw [← hu] at hw
      simp at hw
    · exact h

/-- C3 counterexample: the derived age of a listing whose extracted year
exceeds the 2024 baseline is negative, not the claimed clamped minimum of
1 — for year 2025 the code computes 2024 - 2025 = -1. -/
theorem c3_counterexample : car_age 2025 = -1 ∧ car_age 2025 ≠ 1 := by decide

/-- C3 (amended): the derived vehicle age is `2024 - year` with no lower
clamp; for every extracted year beyond 2024 it is negative, and such a
listing falls into the newest age band (sub-score 9). -/
theorem c3_age_unclamped (year : ℤ) (h : 2024 < year) :
    car_age year < 0 ∧ (analyze_year year).score = 9 := by
  constructor
  · unfold car_age; omega
  · unfold analyze_year
    rw [if_pos (by unfold car_age; omega)]

theorem c3_age_unclamped_witness :
    2024 < (2025 : ℤ) ∧ car_age 2025 < 0 ∧ (analyze_year 2025).score = 9 :=
  ⟨by decide, c3_age_unclamped 2025 (by decide)⟩

/-- C2: scheme-relative image URLs are dropped, not rewritten: the `https:`
rewrite is nested inside `if src.startswith('http')` and is unreachable.
A document whose image URL appears only scheme-relative yields no entry
(against the claim's "rewrites every scheme-relative URL to absolute
https"); when both forms appear, the single absolute entry arises from
dropping the scheme-relative copy, and the Drom extractor behaves the same
way. -/
theorem c2_scheme_relative_dropped :
    extract_avito_images schemeRelDoc = [] ∧
    extract_avito_images bothFormsDoc = ["https://99.img.avito.st/1.png"] ∧
    extract_drom_images dromSchemeRelDoc = [] := by decide

/-- C6: on a document with no marker of any kind (and a URL with no region
segment) every extracted field equals its documented default: the "unknown
model" title, price 0, the baseline year 2020, the unknown region, and an
empty image list. (That extraction raises no exception is modelled by the
extractors being total: every strategy yields an optional value and every
failure falls through to the next strategy or the default.) -/
theorem c6_defaults_on_empty_document :
    parse_avito_ad emptyAvitoDoc "" =
      { title := "Неизвестная модель", price := 0, year := 2020,
        region := "Неизвестно", image_count := 0, images := [], source := "avito" } := by
  decide

/-- A selector-loop price is a digit-string value, hence non-negative. -/
theorem elemPrice_nonneg {e : Elem} {n : ℤ} (h : elemPrice e = some n) : 0 ≤ n := by
  simp only [elemPrice] at h
  split_ifs at h
  · injection h with h2
    exact h2 ▸ Int.natCast_nonneg _
  · injection h with h2
    exact h2 ▸ Int.natCast_nonneg _

/-- A Drom selector-loop price is non-negative. -/
theorem textPrice_nonneg {e : Elem} {n : ℤ} (h : textPrice e = some n) : 0 ≤ n := by
  simp only [textPrice] at h
  split_ifs at h
  injection h with h2
  exact h2 ▸ Int.natCast_nonneg _

/-- A raw-text pattern price passes `isdigit`, hence is non-negative. -/
theorem patPrice_nonneg {c : String} {n : ℤ} (h : patPrice c = some n) : 0 ≤ n := by
  simp only [patPrice] at h
  split_ifs at h
  injection h with h2
  exact h2 ▸ Int.natCast_nonneg _

/-- C4 counterexample: a document whose only price information is a JSON-LD
`offers.price` of -5 extracts the negative price -5 — the JSON-LD fallback
returns `int(price)` unchecked. -/
theorem c4_counterexample :
    extract_avito_price negPriceDoc = -5 ∧ ¬ (0 ≤ extract_avito_price negPriceDoc) := by
  decide

/-- C4 (amended): the extracted year is always non-negative, a Drom price is
always non-negative, and an Avito price is non-negative on every path except
the JSON-LD fallback, which returns the document's JSON-LD price verbatim
(so it is non-negative exactly when the document's value is); no mileage
extraction exists in the code. -/
theorem c4_extraction_nonneg :
    (∀ doc : AvitoDoc,
      (∀ v n, doc.jsonLd = some v → pyIntOf v = some n → 0 ≤ n) →
      0 ≤ extract_avito_price doc) ∧
    (∀ doc : DromDoc, 0 ≤ extract_drom_price doc) ∧
    (∀ title : String, 0 ≤ extract_year title) := by
  refine ⟨?_, ?_, ?_⟩
  · intro doc hj
    unfold extract_avito_price
    rcases hsel : doc.priceSel.findSome? (fun oe => oe.bind elemPrice) with _ | n
    · rcases hjson : doc.jsonLd.bind pyIntOf with _ | n
      · rcases hpat : doc.pricePat.findSome? (fun oc => oc.bind patPrice) with _ | n
        · simp [hsel, hjson, hpat]
        · simp only [hsel, hjson, hpat]
          obtain ⟨oc, hoc, hc⟩ := List.exists_of_findSome?_eq_some hpat
          obtain ⟨c, -, hcp⟩ := Option.bind_eq_some.mp hc
          exact patPrice_nonneg hcp
      · simp only [hsel, hjson]
        obtain ⟨v, hv, hpv⟩ := Option.bind_eq_some.mp hjson
        exact hj v n hv hpv
    · simp only [hsel]
      obtain ⟨oe, hoe, he⟩ := List.exists_of_findSome?_eq_some hsel
      obtain ⟨e, -, hep⟩ := Option.bind_eq_some.mp he
      exact elemPrice_nonneg hep
  · intro doc
    unfold extract_drom_price
    rcases hsel : doc.priceSel.findSome? (fun oe => oe.bind textPrice) with _ | n
    · rcases hpat : doc.pricePat.findSome? (fun oc => oc.bind patPrice) with _ | n
      · simp [hsel, hpat]
      · simp only [hsel, hpat]
        obtain ⟨oc, hoc, hc⟩ := List.exists_of_findSome?_eq_some hpat
        obtain ⟨c, -, hcp⟩ := Option.bind_eq_some.mp hc
        exact patPrice_nonneg hcp
    · simp only [hsel]
      obtain ⟨oe, hoe, he⟩ := List.exists_of_findSome?_eq_some hsel
      obtain ⟨e, -, hep⟩ := Option.bind_eq_some.mp he
      exact textPrice_nonneg hep
  · intro title
    unfold extract_year
    rcases hy : findYear none title.toList with _ | y
    · simp [hy]
    · simp only [hy]
      exact Int.natCast_nonneg _

theorem c4_extraction_nonneg_witness :
    0 ≤ extract_avito_price emptyAvitoDoc ∧
    0 ≤ extract_drom_price emptyDromDoc ∧
    0 ≤ extract_year "Volkswagen Golf 2018" :=
  ⟨c4_extraction_nonneg.1 emptyAvitoDoc
      (by intro v n hv; simp [emptyAvitoDoc] at hv),
   c4_extraction_nonneg.2.1 emptyDromDoc,
   c4_extraction_nonneg.2.2 "Volkswagen Golf 2018"⟩

/-- The feature analysis of `stC1` yields the composite score 20. -/
theorem featC1_eval : analyze_image_features (some stC1) =
    { score := 20, color_uniformity := some 40, edge_quality := some 0,
      texture_smoothness := some 0, brightness_level := some 40 } := by
  simp only [analyze_image_features, analyze_color_uniformity, analyze_edges, analyze_texture,
    analyze_brightness, calculate_paint_score, stC1, pyTrunc]
  norm_num [min_def, max_def]

/-- `paintC1` is reachable: it is the report the paint pipeline produces on
the single image `fetchC1`. -/
theorem paintC1_reachable : analyze_paint_from_urls [fetchC1] = paintC1 := by
  have hsa : successfulAnalyses [fetchC1] =
      [{ score := 20, color_uniformity := some 40, edge_quality := some 0,
         texture_smoothness := some 0, brightness_level := some 40 }] := by
    simp [successfulAnalyses, fetchC1, analyze_single_image, featC1_eval]
  simp only [analyze_paint_from_urls]
  rw [if_neg (by simp)]
  rw [hsa]
  rw [if_neg (by simp)]
  simp only [aggregate_analyses]
  rw [if_neg (by simp)]
  simp only [paintC1]
  norm_num [pyTrunc]
  decide

/-- C1 counterexample: for the ad `adC1` (sub-scores 8, 9, 9) and the real
condition assessment `paintC1` (score 20, insufficient-data flag absent),
the code computes overall score round(26/3) = 9, while the claimed mean
over the four available sub-scores is round(46/4) = 12 — the condition
score never participates. -/
theorem c1_counterexample :
    paintC1.error = none ∧
    (buildAnalysis adC1 paintC1).paint_analysis = some paintC1 ∧
    (buildAnalysis adC1 paintC1).overall_score = 9 ∧
    overall_score_spec (analyze_price adC1.price) (analyze_photos adC1.image_count)
      (analyze_year adC1.year) paintC1 = 12 ∧
    (9 : ℤ) ≠ 12 := by
  refine ⟨rfl, rfl, ?_, ?_, by decide⟩
  · have h8 : (⌊(26:ℚ)/3⌋ : ℤ) = 8 := by rw [Int.floor_eq_iff]; norm_num
    simp only [buildAnalysis, analyze_ad, calculate_overall_score, analyze_price, analyze_photos,
      analyze_year, car_age, adC1]
    norm_num [pyRound, h8]
  · have h11 : (⌊(46:ℚ)/4⌋ : ℤ) = 11 := by rw [Int.floor_eq_iff]; norm_num
    simp only [overall_score_spec, analyze_price, analyze_photos, analyze_year, car_age, adC1,
      paintC1]
    norm_num [pyRound, h11]

/-- C1 (amended): for every parsed ad and every condition assessment, the
overall score of the final analysis is the rounded mean of the price,
photo-count and age sub-scores alone; the condition assessment never
participates, whether or not its insufficient-data flag is set (the overall
score is computed before the paint report is attached). -/
theorem c1_overall_ignores_condition :
    ∀ (ad : AdData) (paint : PaintReport),
      (buildAnalysis ad paint).overall_score =
        pyRound ((((analyze_price ad.price).score + (analyze_photos ad.image_count).score +
                   (analyze_year ad.year).score : ℕ) : ℚ) / 3) := by
  intro ad paint
  rfl

/-- C7: the paint analyzer returns the error-flagged terminal state with
score 0 exactly when zero images were successfully analyzed (empty input
list, or every image failing download, decode, the size check, the channel
check, or scoring), and an assessment produced from at least one
successfully analyzed image never carries the flag — the terminal state is
distinguishable from every real assessment. -/
theorem c7_insufficient_data_flag :
    ∀ urls : List Fetch,
      ((analyze_paint_from_urls urls).error.isSome = true ↔ successfulAnalyses urls = []) ∧
      (successfulAnalyses urls = [] → (analyze_paint_from_urls urls).score = 0) := by
  intro urls
  by_cases hu : urls = []
  · subst hu
    exact ⟨by simp [analyze_paint_from_urls, successfulAnalyses],
           fun _ => by simp [analyze_paint_from_urls]⟩
  · by_cases hs : successfulAnalyses urls = []
    · simp [analyze_paint_from_urls, hu, hs]
    · have hrw : analyze_paint_from_urls urls =
          aggregate_analyses (successfulAnalyses urls) (successfulAnalyses urls).length := by
        simp [analyze_paint_from_urls, hu, hs]
      rw [hrw]
      simp [aggregate_analyses, hs]

theorem c7_insufficient_data_flag_witness :
    (analyze_paint_from_urls []).error.isSome = true ∧ (analyze_paint_from_urls []).score = 0 :=
  ⟨(c7_insufficient_data_flag []).1.mpr rfl, (c7_insufficient_data_flag []).2 rfl⟩

/-- The feature analysis of `st99` yields the composite score 99. -/
theorem feat99_eval : analyze_image_features (some st99) =
    { score := 99, color_uniformity := some 100, edge_quality := some 100,
      texture_smoothness := some 100, brightness_level := some 90 } := by
  simp only [analyze_image_features, analyze_color_uniformity, analyze_edges, analyze_texture,
    analyze_brightness, calculate_paint_score, st99, pyTrunc]
  norm_num [min_def, max_def]

/-- The feature analysis of `st94` yields the composite score 94. -/
theorem feat94_eval : analyze_image_features (some st94) =
    { score := 94, color_uniformity := some 100, edge_quality := some 100,
      texture_smoothness := some 100, brightness_level := some 40 } := by
  simp only [analyze_image_features, analyze_color_uniformity, analyze_edges, analyze_texture,
    analyze_brightness, calculate_paint_score, st94, pyTrunc]
  norm_num [min_def, max_def]

/-- C8 counterexample: two successfully analyzed images with composite
scores 99 and 94 have arithmetic mean 96.5, but the aggregate score the code
reports is `int(96.5)` = 96 — the aggregate is the truncated mean, not the
mean itself. -/
theorem c8_counterexample :
    ((successfulAnalyses [fetch99, fetch94]).map PaintResult.score) = [99, 94] ∧
    (analyze_paint_from_urls [fetch99, fetch94]).score = 96 ∧
    ((96 : ℚ) ≠ (99 + 94) / 2) := by
  have hsa : successfulAnalyses [fetch99, fetch94] =
      [{ score := 99, color_uniformity := some 100, edge_quality := some 100,
         texture_smoothness := some 100, brightness_level := some 90 },
       { score := 94, color_uniformity := some 100, edge_quality := some 100,
         texture_smoothness := some 100, brightness_level := some 40 }] := by
    simp [successfulAnalyses, fetch99, fetch94, analyze_single_image, feat99_eval, feat94_eval]
  refine ⟨by rw [hsa]; rfl, ?_, by norm_num⟩
  have hfloor : (⌊(193:ℚ)/2⌋ : ℤ) = 96 := by rw [Int.floor_eq_iff]; norm_num
  have hrw : analyze_paint_from_urls [fetch99, fetch94] =
      aggregate_analyses (successfulAnalyses [fetch99, fetch94])
        (successfulAnalyses [fetch99, fetch94]).length := by
    simp [analyze_paint_from_urls, hsa]
  rw [hrw, hsa]
  simp only [aggregate_analyses]
  norm_num [pyTrunc, hfloor]
  simp

/-- C8 (amended): whenever at least one image is successfully analyzed, the
aggregate condition score is the arithmetic mean of the per-image composite
scores over exactly the successfully analyzed images — failed images are
excluded rather than counted as zero — truncated to an integer. -/
theorem c8_aggregate_truncated_mean :
    ∀ urls : List Fetch, successfulAnalyses urls ≠ [] →
      (analyze_paint_from_urls urls).score =
        pyTrunc ((((successfulAnalyses urls).map PaintResult.score).sum : ℚ) /
                 ((successfulAnalyses urls).length : ℚ)) := by
  intro urls h
  have hu : urls ≠ [] := fun he => h (by simp [he, successfulAnalyses])
  simp [analyze_paint_from_urls, hu, h, aggregate_analyses]

theorem c8_aggregate_truncated_mean_witness :
    (analyze_paint_from_urls [fetch99]).score =
      pyTrunc ((((successfulAnalyses [fetch99]).map PaintResult.score).sum : ℚ) /
               ((successfulAnalyses [fetch99]).length : ℚ)) :=
  c8_aggregate_truncated_mean [fetch99]
    (by simp [successfulAnalyses, fetch99, analyze_single_image, feat99_eval])

/-- Each signal score bound: color uniformity lies in [0, 100]. -/
theorem color_uniformity_mem (st : ImageStats) :
    0 ≤ analyze_color_uniformity st ∧ analyze_color_uniformity st ≤ 100 :=
  ⟨le_min (by norm_num) (le_max_left 0 _), min_le_left _ _⟩

/-- Texture smoothness lies in [0, 100]. -/
theorem texture_mem (st : ImageStats) :
    0 ≤ analyze_texture st ∧ analyze_texture st ≤ 100 :=
  ⟨le_min (by norm_num) (le_max_left 0 _), min_le_left _ _⟩

/-- Brightness lies in [40, 100]. -/
theorem brightness_mem (st : ImageStats) :
    40 ≤ analyze_brightness st ∧ analyze_brightness st ≤ 100 := by
  unfold analyze_brightness
  split_ifs <;> norm_num

/-- Edge quality is non-negative given a non-negative edge density. -/
theorem edges_nonneg (st : ImageStats) (hd : 0 ≤ st.edgeDensity) :
    0 ≤ analyze_edges st :=
  le_min (by norm_num) (by positivity)

/-- The weighted composite of non-negative signals lies in [0, 100]. -/
theorem paint_score_mem {u e t b : ℚ} (hu : 0 ≤ u) (he : 0 ≤ e) (ht : 0 ≤ t) (hb : 0 ≤ b) :
    0 ≤ calculate_paint_score u e t b ∧ calculate_paint_score u e t b ≤ 100 := by
  unfold calculate_paint_score
  have htot : 0 ≤ u * 0.4 + e * 0.3 + t * 0.2 + b * 0.1 := by positivity
  refine ⟨le_min (by norm_num) ?_, min_le_left _ _⟩
  rw [pyTrunc, if_neg (not_lt.mpr htot)]
  exact Int.floor_nonneg.mpr htot

/-- Every feature-analysis result's score is at most 100 (the except arm
returns 0, the regular arm is capped by `min(100, ...)`). -/
theorem features_score_le (o : Option ImageStats) : (analyze_image_features o).score ≤ 100 := by
  cases o with
  | none => simp [analyze_image_features]
  | some st =>
    simp only [analyze_image_features, calculate_paint_score]
    exact min_le_left _ _

/-- A successfully analyzed single image's score is at most 100. -/
theorem single_image_score_le {d : Fetch} {a : PaintResult}
    (h : analyze_single_image d = some a) : a.score ≤ 100 := by
  cases d with
  | failure => simp [analyze_single_image] at h
  | ok hh ww three st =>
    simp only [analyze_single_image] at h
    split_ifs at h with h1 h2
    · injection h with h3
      exact h3 ▸ features_score_le st

/-- Every analysis the per-URL loop keeps has a score in (0, 100]. -/
theorem successful_score_pos_le (urls : List Fetch) :
    ∀ r ∈ successfulAnalyses urls, 0 < r.score ∧ r.score ≤ 100 := by
  intro r hr
  simp only [successfulAnalyses, List.mem_filterMap] at hr
  obtain ⟨d, -, hd⟩ := hr
  rcases hsi : analyze_single_image d with _ | a
  · rw [hsi] at hd; simp at hd
  · rw [hsi] at hd
    by_cases hpos : 0 < a.score
    · simp only [hpos, if_pos, Option.some.injEq] at hd
      subst hd
      exact ⟨hpos, single_image_score_le hsi⟩
    · simp [hpos] at hd

/-- C9: for any image whose edge density is non-negative (it is a pixel
ratio), the per-image composite — the fixed-weight sum of the four signal
scores, truncated to an integer — lies in [0, 100]; and for every input
list, the aggregate condition score lies in [0, 100]. -/
theorem c9_condition_scores_bounded :
    (∀ st : ImageStats, 0 ≤ st.edgeDensity →
      0 ≤ (analyze_image_features (some st)).score ∧
      (analyze_image_features (some st)).score ≤ 100) ∧
    (∀ urls : List Fetch,
      0 ≤ (analyze_paint_from_urls urls).score ∧ (analyze_paint_from_urls urls).score ≤ 100) := by
  constructor
  · intro st hd
    have hscore := paint_score_mem (color_uniformity_mem st).1 (edges_nonneg st hd)
      (texture_mem st).1 (le_trans (by norm_num) (brightness_mem st).1)
    simpa [analyze_image_features] using hscore
  · intro urls
    by_cases hu : urls = []
    · subst hu; simp [analyze_paint_from_urls]
    · by_cases hs : successfulAnalyses urls = []
      · simp [analyze_paint_from_urls, hu, hs]
      · have hmem := successful_score_pos_le urls
        have hrw : analyze_paint_from_urls urls =
            aggregate_analyses (successfulAnalyses urls) (successfulAnalyses urls).length := by
          simp [analyze_paint_from_urls, hu, hs]
        have hlen : 0 < ((successfulAnalyses urls).length : ℚ) := by
          have h1 := List.length_pos.mpr hs
          exact_mod_cast h1
        have hsum_le : ((successfulAnalyses urls).map PaintResult.score).sum ≤
            100 * (successfulAnalyses urls).length := by
          have h2 := List.sum_le_card_nsmul ((successfulAnalyses urls).map PaintResult.score) 100
            (by intro x hx
                obtain ⟨r, hr, rfl⟩ := List.mem_map.mp hx
                exact (hmem r hr).2)
          simpa [List.length_map, nsmul_eq_mul, mul_comm] using h2
        have havg0 : 0 ≤ (((successfulAnalyses urls).map PaintResult.score).sum : ℚ) /
            ((successfulAnalyses urls).length : ℚ) := by
          have hsum_pos : 0 < ((successfulAnalyses urls).map PaintResult.score).sum := by
            apply List.sum_pos
            · intro x hx
              obtain ⟨r, hr, rfl⟩ := List.mem_map.mp hx
              exact (hmem r hr).1
            · simp [hs]
          positivity
        have havg100 : (((successfulAnalyses urls).map PaintResult.score).sum : ℚ) /
            ((successfulAnalyses urls).length : ℚ) ≤ 100 := by
          rw [div_le_iff₀ hlen]
          exact_mod_cast hsum_le
        rw [hrw]
        simp only [aggregate_analyses, if_neg hs]
        constructor
        · rw [pyTrunc, if_neg (not_lt.mpr havg0)]
          exact Int.floor_nonneg.mpr havg0
        · rw [pyTrunc, if_neg (not_lt.mpr havg0)]
          calc ⌊(((successfulAnalyses urls).map PaintResult.score).sum : ℚ) /
                ((successfulAnalyses urls).length : ℚ)⌋
              ≤ ⌊(100:ℚ)⌋ := Int.floor_le_floor havg100
            _ = 100 := by norm_num

theorem c9_condition_scores_bounded_witness :
    (0:ℚ) ≤ st99.edgeDensity ∧
    (0 ≤ (analyze_image_features (some st99)).score ∧
     (analyze_image_features (some st99)).score ≤ 100) ∧
    (0 ≤ (analyze_paint_from_urls [fetch99]).score ∧
     (analyze_paint_from_urls [fetch99]).score ≤ 100) :=
  ⟨by norm_num [st99], c9_condition_scores_bounded.1 st99 (by norm_num [st99]),
   c9_condition_scores_bounded.2 [fetch99]⟩

/-- C10: the storage upsert never propagates an exception (the except arm
rolls back and returns normally); a failure injected at the existence
check, the write, or the commit leaves the committed table unchanged; and
on success it updates the row carrying the given identifier when one
exists and appends a new row otherwise. -/
theorem c10_upsert_atomic :
    ∀ (table : List CarAd) (ad : AdInput),
      (∀ f : FailAt, save_car_ad table ad (some f) = table) ∧
      (save_car_ad table ad none =
        if table.any (fun r => r.id = ad.id) then
          table.map (fun r => if r.id = ad.id then updatedRow r ad else r)
        else table ++ [insertedRow ad]) := by
  intro table ad
  constructor
  · intro f
    cases f
    · simp [save_car_ad, save_body, rollback]
    · simp [save_car_ad, save_body, rollback]
    · simp [save_car_ad, save_body, rollback]
      split <;> rfl
  · by_cases h : table.any (fun r => r.id = ad.id) <;>
      simp [save_car_ad, save_body, rollback, h]

/-- The ORDER BY comparator is total. -/
theorem rankLE_total (price : ℤ) (a b : CarAd) :
    rankLE price a b = true ∨ rankLE price b a = true := by
  unfold rankLE
  rcases ha : a.overall_score with _ | x <;> rcases hb : b.overall_score with _ | y <;>
    simp only [ha, hb, decide_eq_true_eq] <;> try simp
  · exact le_total _ _
  · by_cases hxy : x = y
    · subst hxy
      simp only [if_pos rfl, decide_eq_true_eq]
      exact le_total _ _
    · rcases lt_or_gt_of_ne hxy with h | h
      · right
        simp only [if_neg (Ne.symm hxy), decide_eq_true_eq]
        exact h
      · left
        simp only [if_neg hxy, decide_eq_true_eq]
        exact h

/-- The ORDER BY comparator is transitive. -/
theorem rankLE_trans (price : ℤ) (a b c : CarAd)
    (hab : rankLE price a b = true) (hbc : rankLE price b c = true) :
    rankLE price a c = true := by
  unfold rankLE at hab hbc ⊢
  rcases ha : a.overall_score with _ | x <;> rcases hb : b.overall_score with _ | y <;>
    rcases hc : c.overall_score with _ | z <;>
    simp only [ha, hb, hc, decide_eq_true_eq, Bool.false_eq_true] at hab hbc ⊢ <;>
    try rfl
  · exact le_trans hab hbc
  · split_ifs at hab hbc ⊢ <;> simp_all <;> linarith

/-- C5: the similar-ads query returns at most `limit` records; every
returned record has an identifier different from the target's, is active,
has a title containing (case-insensitively) the derived model key, a year
within ±2 of the target's, and a price within [0.7x, 1.3x] of the target's;
and the result is ordered by quality score descending with unset scores
last, ties broken by absolute price distance from the target ascending. -/
theorem c5_find_similar_ads_contract :
    ∀ (corpus : List CarAd) (title tid : String) (year price : ℤ) (limit : ℕ),
      (find_similar_ads corpus title tid year price limit).length ≤ limit ∧
      (∀ r ∈ find_similar_ads corpus title tid year price limit,
        r.id ≠ tid ∧ r.is_active = true ∧
        (∃ t, r.title = some t ∧ containsCI t (_extract_model title) = true) ∧
        (∃ y, r.year = some y ∧ year - 2 ≤ y ∧ y ≤ year + 2) ∧
        (∃ p, r.price = some p ∧ (price : ℚ) * 0.7 ≤ (p : ℚ) ∧ (p : ℚ) ≤ (price : ℚ) * 1.3)) ∧
      List.Pairwise (fun a b => rankLE price a b = true)
        (find_similar_ads corpus title tid year price limit) := by
  intro corpus title tid year price limit
  refine ⟨?_, ?_, ?_⟩
  · simp only [find_similar_ads, List.length_take]
    exact min_le_left _ _
  · intro r hr
    simp only [find_similar_ads] at hr
    have h1 : r ∈ (corpus.filter (matchesQuery (_extract_model title) year price tid)).insertionSort
        (fun a b => rankLE price a b = true) :=
      (List.take_sublist _ _).mem hr
    have hmem : r ∈ corpus.filter (matchesQuery (_extract_model title) year price tid) :=
      ((List.perm_insertionSort _ _).mem_iff).mp h1
    have hq := List.of_mem_filter hmem
    simp only [matchesQuery, Bool.and_eq_true, decide_eq_true_eq] at hq
    obtain ⟨⟨⟨⟨ht, hy⟩, hp⟩, hid⟩, hact⟩ := hq
    refine ⟨hid, hact, ?_, ?_, ?_⟩
    · rcases hrt : r.title with _ | t
      · rw [hrt] at ht; simp at ht
      · rw [hrt] at ht
        simp only [decide_eq_true_eq] at ht
        exact ⟨t, rfl, ht⟩
    · rcases hry : r.year with _ | yy
      · rw [hry] at hy; simp at hy
      · rw [hry] at hy
        simp only [decide_eq_true_eq] at hy
        exact ⟨yy, rfl, hy.1, hy.2⟩
    · rcases hrp : r.price with _ | pp
      · rw [hrp] at hp; simp at hp
      · rw [hrp] at hp
        simp only [decide_eq_true_eq] at hp
        exact ⟨pp, rfl, hp.1, hp.2⟩
  · simp only [find_similar_ads]
    apply List.Pairwise.sublist (List.take_sublist _ _)
    exact @List.sorted_insertionSort CarAd (fun a b => rankLE price a b = true) _
      ⟨rankLE_total price⟩ ⟨rankLE_trans price⟩ _

theorem c5_find_similar_ads_contract_witness :
    (find_similar_ads [simRow] "Volkswagen Golf 2018" "t0" 2018 450000 5).length ≤ 5 ∧
    simRow.id ≠ "t0" ∧ simRow.is_active = true ∧
    (∃ t, simRow.title = some t ∧ containsCI t (_extract_model "Volkswagen Golf 2018") = true) ∧
    (∃ y, simRow.year = some y ∧ 2018 - 2 ≤ y ∧ y ≤ 2018 + 2) ∧
    (∃ p, simRow.price = some p ∧ (450000 : ℚ) * 0.7 ≤ (p : ℚ) ∧ (p : ℚ) ≤ (450000 : ℚ) * 1.3) := by
  have h := c5_find_similar_ads_contract [simRow] "Volkswagen Golf 2018" "t0" 2018 450000 5
  have hmodel : _extract_model "Volkswagen Golf 2018" = "golf" := by decide
  have hpred : matchesQuery "golf" 2018 450000 "t0" simRow = true := by
    simp only [matchesQuery, simRow, Bool.and_eq_true, decide_eq_true_eq]
    refine ⟨⟨⟨⟨by decide, by norm_num⟩, by norm_num⟩, by decide⟩, trivial⟩
  have hlist : find_similar_ads [simRow] "Volkswagen Golf 2018" "t0" 2018 450000 5 = [simRow] := by
    simp [find_similar_ads, hmodel, List.filter, hpred, List.insertionSort, List.orderedInsert]
  have hmem : simRow ∈ find_similar_ads [simRow] "Volkswagen Golf 2018" "t0" 2018 450000 5 := by
    rw [hlist]; exact List.mem_singleton_self _
  exact ⟨h.1, h.2.1 simRow hmem⟩
